import Mathlib

/-!
Shallow embedding of the mistsys/gopacket `layers` package pieces under
verification: the OmniPeek RF-metadata decoder (layers/omnipeek.go), the
CiscoAP wrapping-message decoder (layers/ciscoap.go), the EAPOL base and
EAPOLKey decoders (layers/eapol.go), and the protocol-enumeration decoder
registry with its dispatch methods (layers/enums.go).

Modelling conventions:
- A Go byte slice is a `List UInt8` (capacity = length).
- `binary.BigEndian.Uint16/Uint32` and `binary.LittleEndian.Uint16` become
  arithmetic on the bytes read at the source's offsets.
- A Go method `func (m *T) DecodeFromBytes(data []byte, df) error` mutates
  `m` and returns an error; it is embedded as a function
  `T -> Bytes -> GoResult T` returning the post-state together with the
  returned error. An out-of-range index or slice expression is a Go runtime
  panic, embedded as the `GoResult.oob` outcome (which carries no state,
  since a panicking call returns no value).
- `time.Time` values produced by `time.Unix(sec, nsec)` are embedded as the
  equivalent count of nanoseconds since the Unix epoch (an `Int`).
- A `gopacket.Decoder` is embedded as `Bytes -> Option String`: `none` is a
  nil error, `some e` the error message. The `PacketBuilder` side effects of
  external decoders are outside this core and are not modelled; the claims
  under verification only concern which decoder is invoked and the error
  produced when none is registered.
-/

abbrev Bytes := List UInt8

/-- Byte read `data[i]`, as a `Nat` (callers guard the bound as Go does). -/
def u8 (d : Bytes) (i : Nat) : Nat :=
  (d.getD i 0).toNat

/-- Big-endian 16-bit read, `binary.BigEndian.Uint16(data[i:i+2])`. -/
def be16 (d : Bytes) (i : Nat) : Nat :=
  u8 d i * 256 + u8 d (i + 1)

/-- Big-endian 32-bit read, `binary.BigEndian.Uint32(data[i:i+4])`. -/
def be32 (d : Bytes) (i : Nat) : Nat :=
  ((u8 d i * 256 + u8 d (i + 1)) * 256 + u8 d (i + 2)) * 256 + u8 d (i + 3)

/-- Little-endian 16-bit read, `binary.LittleEndian.Uint16(data[i:i+2])`. -/
def le16 (d : Bytes) (i : Nat) : Nat :=
  u8 d (i + 1) * 256 + u8 d i

/-- Go conversion of a byte value to `int8` (two's complement reinterpretation). -/
def toInt8 (b : Nat) : Int :=
  if b < 128 then (b : Int) else (b : Int) - 256

/-- Go conversion of a `uint16` value to `int16` (two's complement reinterpretation). -/
def toInt16 (v : Nat) : Int :=
  if v < 32768 then (v : Int) else (v : Int) - 65536

/-- `time.Unix(sec, nsec)` as nanoseconds since the Unix epoch. -/
def timeUnixNanos (sec nsec : Int) : Int :=
  sec * 1000000000 + nsec

/-- Outcome of a Go decode call: `oob` is a runtime panic from an
out-of-range index/slice (no state escapes); `ret err st` is a normal
return with error value `err` (none = nil) and post-state `st`. -/
inductive GoResult (α : Type) where
  | oob : GoResult α
  | ret : Option String → α → GoResult α
deriving DecidableEq

--------------------------------------------------------------------------
-- layers/omnipeek.go
--------------------------------------------------------------------------

def HDR_VERSION_0 : Nat := 0
def HDR_VERSION_1 : Nat := 1

def PEEK_HDR0_SIZE : Nat := 20

def PEEK_HDR1_MAGIC_VAL : Nat := 0x00ffabcd
def PEEK_HDR1_VERSION : Nat := 2
def PEEK_HDR1_SIZE : Nat := 55
def PEEK_HDR1_TYPE : Nat := 6

/-- The `OmniPeek` struct (union of the legacy and extended header fields),
with `BaseLayer` flattened into `Contents`/`Payload`. -/
structure OmniPeek where
  Contents : Bytes
  Payload : Bytes
  HeaderVersion : Nat
  TimeStamp : Int
  Flags : Nat
  Status : Nat
  PacketLength : Nat
  SliceLength : Nat
  NoiseStrength : Nat
  SignalStrength : Nat
  Noise_dBm : Int
  Signal_dBm : Int
  Channel : Int
  DataRate : Nat
  Frequency : Nat
  Band : Nat
  Dot11_HT_VHT_Flags : Nat
deriving DecidableEq

/-- The Go zero value `OmniPeek{}`. -/
def OmniPeek.zero : OmniPeek :=
  ⟨[], [], 0, 0, 0, 0, 0, 0, 0, 0, 0, 0, 0, 0, 0, 0, 0⟩

/-- `OmniPeek.DecodeFromBytes`. The source performs no length checks, so
every read carries its out-of-range guard: reading the magic needs 4 bytes,
the version byte needs 5, the size field needs 9, the type field needs 13,
the remaining extended reads (through `data[51:55]` and `data[:55]`) need
55, and the legacy reads (through `data[:20]`) need 20. The first failing
access panics; field validation happens in source order, before the reads
that follow it. -/
def omniPeekDecodeFromBytes (m : OmniPeek) (data : Bytes) : GoResult OmniPeek :=
  if data.length < 4 then .oob else
  if be32 data 0 = PEEK_HDR1_MAGIC_VAL then
    -- new style 802.11n header
    if data.length < 5 then .oob else
    if u8 data 4 ≠ PEEK_HDR1_VERSION then
      .ret (some ("bad header version " ++ toString (u8 data 4))) m
    else
    if data.length < 9 then .oob else
    if be32 data 5 ≠ PEEK_HDR1_SIZE then
      .ret (some ("bad header size " ++ toString (be32 data 5))) m
    else
    if data.length < 13 then .oob else
    if be32 data 9 ≠ PEEK_HDR1_TYPE then
      .ret (some ("bad header type " ++ toString (be32 data 9))) m
    else
    if data.length < 55 then .oob else
    .ret none
      { m with
        HeaderVersion := HDR_VERSION_1
        DataRate := be16 data 13
        Channel := toInt16 (be16 data 15)
        Frequency := be32 data 17
        Band := be32 data 21
        Dot11_HT_VHT_Flags := be32 data 25
        SignalStrength := u8 data 29
        Signal_dBm := toInt8 (u8 data 31)
        NoiseStrength := u8 data 30
        Noise_dBm := toInt8 (u8 data 32)
        PacketLength := be16 data 41
        SliceLength := be16 data 43
        Flags := u8 data 45
        Status := u8 data 46
        TimeStamp := timeUnixNanos (be32 data 47) ((be32 data 51 : Int) * 1000)
        Contents := data.take PEEK_HDR1_SIZE
        Payload := data.drop PEEK_HDR1_SIZE }
  else
    -- legacy 802.11 a/bg header
    if data.length < 20 then .oob else
    .ret none
      { m with
        HeaderVersion := HDR_VERSION_0
        Signal_dBm := toInt8 (u8 data 0)
        Noise_dBm := toInt8 (u8 data 1)
        PacketLength := be16 data 2
        SliceLength := be16 data 4
        Flags := u8 data 6
        Status := u8 data 7
        TimeStamp := timeUnixNanos (be32 data 8) ((be32 data 12 : Int) * 1000)
        DataRate := u8 data 16
        Channel := (u8 data 17 : Int)
        SignalStrength := u8 data 18
        NoiseStrength := u8 data 19
        Contents := data.take PEEK_HDR0_SIZE
        Payload := data.drop PEEK_HDR0_SIZE }

--------------------------------------------------------------------------
-- layers/ciscoap.go
--------------------------------------------------------------------------

/-- The `CiscoAP` struct (`Type`/`Subtype`/`Length` plus `BaseLayer`);
the Go field `Type` is spelled `Type_`. -/
structure CiscoAP where
  Contents : Bytes
  Payload : Bytes
  Type_ : Nat
  Subtype : Nat
  Length : Nat
deriving DecidableEq

/-- The Go zero value `CiscoAP{}`. -/
def CiscoAP.zero : CiscoAP := ⟨[], [], 0, 0, 0⟩

/-- `CiscoAP.DecodeFromBytes`: three unchecked big-endian u32 reads and the
`data[:12]`/`data[12:]` split; any buffer shorter than 12 bytes hits an
out-of-range slice. -/
def ciscoAPDecodeFromBytes (m : CiscoAP) (data : Bytes) : GoResult CiscoAP :=
  if data.length < 12 then .oob else
  .ret none
    { m with
      Type_ := be32 data 0
      Subtype := be32 data 4
      Length := be32 data 8
      Contents := data.take 12
      Payload := data.drop 12 }

--------------------------------------------------------------------------
-- layers/eapol.go
--------------------------------------------------------------------------

/-- The `EAPOL` struct; the Go field `Type` (an `EAPOLType` code) is
spelled `Type_`. -/
structure EAPOL where
  Contents : Bytes
  Payload : Bytes
  Version : Nat
  Type_ : Nat
  Length : Nat
deriving DecidableEq

/-- The Go zero value `EAPOL{}`. -/
def EAPOL.zero : EAPOL := ⟨[], [], 0, 0, 0⟩

/-- `EAPOL.DecodeFromBytes`: unchecked reads of `data[0]`, `data[1]`,
`data[2:4]` and the `data[:4]`/`data[4:]` split. -/
def eapolDecodeFromBytes (e : EAPOL) (data : Bytes) : GoResult EAPOL :=
  if data.length < 4 then .oob else
  .ret none
    { e with
      Version := u8 data 0
      Type_ := u8 data 1
      Length := be16 data 2
      Contents := data.take 4
      Payload := data.drop 4 }

-- The `KeyInfo` const block in layers/eapol.go gives only the first
-- constant an expression, `1 << 0`, and does not use iota; by Go
-- constant-declaration semantics each following ConstSpec repeats the
-- previous expression list, so all ten constants evaluate to `1 << 0`.

def KeyInfo_DescriptorVersion : Nat := 1 <<< 0
def KeyInfo_Type : Nat := 1 <<< 0
def KeyInfo_Install : Nat := 1 <<< 0
def KeyInfo_ACK : Nat := 1 <<< 0
def KeyInfo_MIC : Nat := 1 <<< 0
def KeyInfo_Secure : Nat := 1 <<< 0
def KeyInfo_Error : Nat := 1 <<< 0
def KeyInfo_Request : Nat := 1 <<< 0
def KeyInfo_EncryptedKeyData : Nat := 1 <<< 0
def KeyInfo_SMKMessage : Nat := 1 <<< 0

/-- The `EAPOLKey` struct. The Go `int`-typed unpacked bit fields are
embedded as `Nat` (their values are the non-negative results of `&`/`>>`). -/
structure EAPOLKey where
  Contents : Bytes
  Payload : Bytes
  DescriptorType : Nat
  KeyInfo : Nat
  KeyInfo_DescriptorVersion : Nat
  KeyInfo_Type : Nat
  KeyInfo_Install : Nat
  KeyInfo_ACK : Nat
  KeyInfo_MIC : Nat
  KeyInfo_Secure : Nat
  KeyInfo_Error : Nat
  KeyInfo_Request : Nat
  KeyInfo_EncryptedKeyData : Nat
  KeyInfo_SMKMessage : Nat
  KeyLength : Nat
  KeyReplayCounter : Bytes
  KeyNonce : Bytes
  KeyIV : Bytes
  KeyRSC : Bytes
deriving DecidableEq

/-- The Go zero value `EAPOLKey{}`. -/
def EAPOLKey.zero : EAPOLKey :=
  ⟨[], [], 0, 0, 0, 0, 0, 0, 0, 0, 0, 0, 0, 0, 0, [], [], [], []⟩

/-- `EAPOLKey.DecodeFromBytes`: unchecked reads through `data[61:69]`, so
any buffer shorter than 69 bytes hits an out-of-range access; the key-info
mask is read little-endian at offset 1 and unpacked bit by bit exactly as
in the source. `Contents` is the whole input and `Payload` is set to nil. -/
def eapolKeyDecodeFromBytes (e : EAPOLKey) (data : Bytes) : GoResult EAPOLKey :=
  if data.length < 69 then .oob else
  let ki := le16 data 1
  .ret none
    { e with
      DescriptorType := u8 data 0
      KeyInfo := ki
      KeyInfo_DescriptorVersion := ki &&& 7
      KeyInfo_Type := (ki >>> 3) &&& 1
      KeyInfo_Install := (ki >>> 6) &&& 1
      KeyInfo_ACK := (ki >>> 7) &&& 1
      KeyInfo_MIC := (ki >>> 8) &&& 1
      KeyInfo_Secure := (ki >>> 9) &&& 1
      KeyInfo_Error := (ki >>> 10) &&& 1
      KeyInfo_Request := (ki >>> 11) &&& 1
      KeyInfo_EncryptedKeyData := (ki >>> 12) &&& 1
      KeyInfo_SMKMessage := (ki >>> 13) &&& 1
      KeyLength := le16 data 3
      KeyReplayCounter := (data.drop 5).take 8
      KeyNonce := (data.drop 13).take 32
      KeyIV := (data.drop 45).take 16
      KeyRSC := (data.drop 61).take 8
      Contents := data
      Payload := [] }

--------------------------------------------------------------------------
-- layers/enums.go: the protocol enumeration registry
--------------------------------------------------------------------------

/-- A registered decoder: the observable behavior of `gopacket.Decoder` at
this layer boundary, mapping input bytes to an optional error. -/
def Decoder : Type := Bytes → Option String

/-- `EnumMetadata`: decoder (nil modelled as `none`), name, and layer type
(layer types are opaque here, kept as their numeric identity). -/
structure EnumMetadata where
  DecodeWith : Option Decoder
  Name : String
  LayerType : Nat

/-- The Go zero value `EnumMetadata{}`: the "no registered entry" state. -/
def emptyMetadata : EnumMetadata :=
  { DecodeWith := none, Name := "", LayerType := 0 }

/-- The eleven enumeration namespaces whose metadata arrays are declared in
layers/enums.go. -/
inductive NS where
  | ethernetType
  | ipProtocol
  | sctpChunkType
  | pppType
  | pppoeCode
  | linkType
  | fddiFrameControl
  | eapolType
  | protocolFamily
  | dot11Type
  | usbType
deriving DecidableEq

/-- Declared array length of each namespace's metadata array, exactly as in
the source: `EthernetTypeMetadata [65536]`, `IPProtocolMetadata [265]`,
`SCTPChunkTypeMetadata [265]`, `PPPTypeMetadata [65536]`, and `[256]` for
the rest. -/
def NS.size : NS → Nat
  | .ethernetType => 65536
  | .ipProtocol => 265
  | .sctpChunkType => 265
  | .pppType => 65536
  | .pppoeCode => 256
  | .linkType => 256
  | .fddiFrameControl => 256
  | .eapolType => 256
  | .protocolFamily => 256
  | .dot11Type => 256
  | .usbType => 256

/-- The joint state of the eleven global metadata arrays. -/
def Registries : Type := (ns : NS) → Fin ns.size → EnumMetadata

/-- Assignment `<Namespace>Metadata[c] = m`: overwrite one slot of one
namespace's array. -/
def overrideSlot (st : Registries) (ns : NS) (c : Fin ns.size)
    (m : EnumMetadata) : Registries :=
  Function.update st ns (Function.update (st ns) c m)

/-- The shared shape of every `(a T) Decode` method in layers/enums.go:
if the slot's `DecodeWith` is non-nil invoke it, otherwise return the
"Unable to decode ..." error for this namespace. -/
def enumDecode (reg : Fin n → EnumMetadata) (errPrefix : String)
    (a : Fin n) (data : Bytes) : Option String :=
  match (reg a).DecodeWith with
  | some d => d data
  | none => some (errPrefix ++ toString a.val)

/-- The shared shape of every `(a T) String` method in layers/enums.go:
the registered name if non-empty, else `"Unknown<Namespace>(<code>)"`. -/
def enumString (reg : Fin n → EnumMetadata) (unknownPrefix : String)
    (a : Fin n) : String :=
  if (reg a).Name ≠ "" then (reg a).Name
  else unknownPrefix ++ toString a.val ++ ")"

def EthernetType.Decode (st : Registries) (a : Fin (NS.size .ethernetType))
    (data : Bytes) : Option String :=
  enumDecode (st .ethernetType) "Unable to decode ethernet type " a data

def EthernetType.String (st : Registries) (a : Fin (NS.size .ethernetType)) :
    String :=
  enumString (st .ethernetType) "UnknownEthernetType(" a

def IPProtocol.Decode (st : Registries) (a : Fin (NS.size .ipProtocol))
    (data : Bytes) : Option String :=
  enumDecode (st .ipProtocol) "Unable to decode IP protocol " a data

def IPProtocol.String (st : Registries) (a : Fin (NS.size .ipProtocol)) :
    String :=
  enumString (st .ipProtocol) "UnknownIPProtocol(" a

def SCTPChunkType.Decode (st : Registries) (a : Fin (NS.size .sctpChunkType))
    (data : Bytes) : Option String :=
  enumDecode (st .sctpChunkType) "Unable to decode SCTP chunk type " a data

def SCTPChunkType.String (st : Registries)
    (a : Fin (NS.size .sctpChunkType)) : String :=
  enumString (st .sctpChunkType) "UnknownSCTPChunkType(" a

def PPPType.Decode (st : Registries) (a : Fin (NS.size .pppType))
    (data : Bytes) : Option String :=
  enumDecode (st .pppType) "Unable to decode PPP type " a data

def PPPType.String (st : Registries) (a : Fin (NS.size .pppType)) : String :=
  enumString (st .pppType) "UnknownPPPType(" a

def LinkType.Decode (st : Registries) (a : Fin (NS.size .linkType))
    (data : Bytes) : Option String :=
  enumDecode (st .linkType) "Unable to decode link type " a data

def LinkType.String (st : Registries) (a : Fin (NS.size .linkType)) : String :=
  enumString (st .linkType) "UnknownLinkType(" a

def PPPoECode.Decode (st : Registries) (a : Fin (NS.size .pppoeCode))
    (data : Bytes) : Option String :=
  enumDecode (st .pppoeCode) "Unable to decode PPPoE code " a data

def PPPoECode.String (st : Registries) (a : Fin (NS.size .pppoeCode)) :
    String :=
  enumString (st .pppoeCode) "UnknownPPPoECode(" a

def FDDIFrameControl.Decode (st : Registries)
    (a : Fin (NS.size .fddiFrameControl)) (data : Bytes) : Option String :=
  enumDecode (st .fddiFrameControl) "Unable to decode FDDI frame control " a data

def FDDIFrameControl.String (st : Registries)
    (a : Fin (NS.size .fddiFrameControl)) : String :=
  enumString (st .fddiFrameControl) "UnknownFDDIFrameControl(" a

def EAPOLType.Decode (st : Registries) (a : Fin (NS.size .eapolType))
    (data : Bytes) : Option String :=
  enumDecode (st .eapolType) "Unable to decode EAPOL type " a data

def EAPOLType.String (st : Registries) (a : Fin (NS.size .eapolType)) :
    String :=
  enumString (st .eapolType) "UnknownEAPOLType(" a

def ProtocolFamily.Decode (st : Registries)
    (a : Fin (NS.size .protocolFamily)) (data : Bytes) : Option String :=
  enumDecode (st .protocolFamily) "Unable to decode protocol family " a data

def ProtocolFamily.String (st : Registries)
    (a : Fin (NS.size .protocolFamily)) : String :=
  enumString (st .protocolFamily) "UnknownProtocolFamily(" a

def Dot11Type.Decode (st : Registries) (a : Fin (NS.size .dot11Type))
    (data : Bytes) : Option String :=
  enumDecode (st .dot11Type) "Unable to decode Dot11 type " a data

def Dot11Type.String (st : Registries) (a : Fin (NS.size .dot11Type)) :
    String :=
  enumString (st .dot11Type) "UnknownDot11Type(" a

/-- `decodeIPv4or6` from layers/enums.go: switch on `data[0] >> 4` (an
out-of-range access, hence panic, on an empty buffer); the IPv4 and IPv6
decoders live in other files of the repository and enter as parameters. -/
def decodeIPv4or6 (decodeIPv4 decodeIPv6 : Bytes → Option String)
    (data : Bytes) : GoResult Unit :=
  if data.length < 1 then .oob else
  let version := u8 data 0 / 16
  if version = 4 then .ret (decodeIPv4 data) ()
  else if version = 6 then .ret (decodeIPv6 data) ()
  else .ret (some ("Invalid IP packet version " ++ toString version)) ()

--------------------------------------------------------------------------
-- Concrete inputs used by the witness and counterexample theorems
--------------------------------------------------------------------------

/-- Registry state with every slot of every namespace unregistered. -/
def emptyRegistries : Registries := fun _ _ => emptyMetadata

/-- A sample non-empty metadata record used to exercise overrides. -/
def sampleMetadata : EnumMetadata :=
  { DecodeWith := some (fun _ => none), Name := "Sample", LayerType := 7 }

/-- A decoder that always succeeds (stands in for an external decoder). -/
def sampleOkDecoder : Bytes → Option String := fun _ => none

/-- A decoder that always errors (stands in for an external decoder). -/
def sampleErrDecoder : Bytes → Option String := fun _ => some "boom"

/-- Valid 55-byte extended OmniPeek header with sec=1700000000 and
usec=500000 encoded big-endian at offsets 47 and 51, followed by 3 payload
bytes. -/
def extendedSample : Bytes :=
  [0x00, 0xff, 0xab, 0xcd,                      -- magic
   0x02,                                        -- version
   0x00, 0x00, 0x00, 0x37,                      -- size = 55
   0x00, 0x00, 0x00, 0x06,                      -- type = 6
   0x01, 0x02,                                  -- data rate
   0x00, 0x24,                                  -- channel = 36
   0x00, 0x00, 0x14, 0x6c,                      -- frequency = 5228
   0x00, 0x00, 0x00, 0x02,                      -- band
   0x00, 0x00, 0x00, 0x01,                      -- ht/vht flags
   0x41, 0x28,                                  -- signal%, noise%
   0xc1, 0x9c,                                  -- signal dBm, noise dBm
   0x00, 0x00, 0x00, 0x00, 0x00, 0x00, 0x00, 0x00, -- unused dBm fields
   0x00, 0x64,                                  -- packet length = 100
   0x00, 0x64,                                  -- slice length = 100
   0x01, 0x02,                                  -- flags, status
   0x65, 0x53, 0xf1, 0x00,                      -- sec = 1700000000
   0x00, 0x07, 0xa1, 0x20,                      -- usec = 500000
   0xaa, 0xbb, 0xcc]                            -- payload

/-- Extended-magic buffer whose version byte is 3 (invalid). -/
def extendedBadVersion : Bytes :=
  [0x00, 0xff, 0xab, 0xcd, 0x03,
   0x00, 0x00, 0x00, 0x37, 0x00, 0x00, 0x00, 0x06] ++ List.replicate 42 0

/-- A 22-byte legacy buffer (first 4 bytes are not the extended magic). -/
def legacySample : Bytes :=
  [0xc1, 0x9c,                              -- signal dBm, noise dBm
   0x00, 0x64,                              -- packet length
   0x00, 0x32,                              -- slice length
   0x01, 0x02,                              -- flags, status
   0x65, 0x53, 0xf1, 0x00,                  -- sec
   0x00, 0x07, 0xa1, 0x20,                  -- usec
   0x6c, 0xf0,                              -- rate, channel byte 240
   0x37, 0x28,                              -- signal%, noise%
   0xdd, 0xee]                              -- payload

/-- The first 13 bytes of a valid extended header followed by zeros, 54
bytes total: one byte short of the extended size. -/
def extendedShort54 : Bytes :=
  [0x00, 0xff, 0xab, 0xcd, 0x02,
   0x00, 0x00, 0x00, 0x37, 0x00, 0x00, 0x00, 0x06] ++ List.replicate 41 0

/-- A 19-byte buffer not starting with the extended magic: one byte short
of the legacy size. -/
def legacyShort19 : Bytes := List.replicate 19 0

/-- A 69-byte EAPOL-Key frame whose little-endian key-info mask at offset 1
is 0x03c9 = 0b0000001111001001. -/
def eapolKeySample : Bytes :=
  [0x02, 0xc9, 0x03, 0x10, 0x00] ++ List.replicate 64 0x11

--------------------------------------------------------------------------
-- Theorems
--------------------------------------------------------------------------

/-- Claim C1 (code_bug evidence): none of the four header decoders checks
the buffer length, so a buffer one byte shorter than the decoder's minimum
size (19 for legacy OmniPeek, 54 for extended OmniPeek, 11 for CiscoAP,
3 for EAPOL, 68 for EAPOLKey) hits an out-of-range access — a Go runtime
panic — instead of failing with a TruncatedHeader error. -/
theorem C1_short_buffer_oob :
    omniPeekDecodeFromBytes OmniPeek.zero legacyShort19 = .oob
    ∧ omniPeekDecodeFromBytes OmniPeek.zero extendedShort54 = .oob
    ∧ ciscoAPDecodeFromBytes CiscoAP.zero (List.replicate 11 0) = .oob
    ∧ eapolDecodeFromBytes EAPOL.zero (List.replicate 3 0) = .oob
    ∧ eapolKeyDecodeFromBytes EAPOLKey.zero (List.replicate 68 0) = .oob := by
  refine ⟨?_, ?_, ?_, ?_, ?_⟩ <;> rfl

/-- Claim C2: on any buffer of length at least 55 whose big-endian magic at
offset 0 is 0x00ffabcd, whose version byte at offset 4 is 2, whose size
field at offset 5 is 55 and whose type field at offset 9 is 6,
`OmniPeek.DecodeFromBytes` succeeds, records the extended format
(HeaderVersion = HDR_VERSION_1), consumes exactly 55 bytes, extracts the
fields at the fixed extended offsets, and sets the timestamp to
sec seconds + usec*1000 nanoseconds from the u32 fields at offsets 47/51. -/
theorem C2_extended_decode (m : OmniPeek) (data : Bytes)
    (h55 : 55 ≤ data.length)
    (hmagic : be32 data 0 = PEEK_HDR1_MAGIC_VAL)
    (hver : u8 data 4 = PEEK_HDR1_VERSION)
    (hsize : be32 data 5 = PEEK_HDR1_SIZE)
    (htype : be32 data 9 = PEEK_HDR1_TYPE) :
    omniPeekDecodeFromBytes m data = .ret none
      { m with
        HeaderVersion := HDR_VERSION_1
        DataRate := be16 data 13
        Channel := toInt16 (be16 data 15)
        Frequency := be32 data 17
        Band := be32 data 21
        Dot11_HT_VHT_Flags := be32 data 25
        SignalStrength := u8 data 29
        Signal_dBm := toInt8 (u8 data 31)
        NoiseStrength := u8 data 30
        Noise_dBm := toInt8 (u8 data 32)
        PacketLength := be16 data 41
        SliceLength := be16 data 43
        Flags := u8 data 45
        Status := u8 data 46
        TimeStamp := timeUnixNanos (be32 data 47) ((be32 data 51 : Int) * 1000)
        Contents := data.take 55
        Payload := data.drop 55 } := by
  have h4 : ¬ data.length < 4 := by omega
  have h5 : ¬ data.length < 5 := by omega
  have h9 : ¬ data.length < 9 := by omega
  have h13 : ¬ data.length < 13 := by omega
  have h55' : ¬ data.length < 55 := by omega
  simp [omniPeekDecodeFromBytes, h4, h5, h9, h13, h55', hmagic, hver, hsize,
    htype, PEEK_HDR1_SIZE]

/-- Claim C3: when the extended magic matches but the version byte, the
size field, or the type field (validated in that order) differs from its
required constant, `OmniPeek.DecodeFromBytes` returns the corresponding
descriptive error naming the offending value and leaves the receiver —
including Contents and Payload — exactly as it was (zero bytes consumed,
no partial decode). -/
theorem C3_malformed_extended (m : OmniPeek) (data : Bytes)
    (hmagic : be32 data 0 = PEEK_HDR1_MAGIC_VAL) :
    (5 ≤ data.length → u8 data 4 ≠ PEEK_HDR1_VERSION →
      omniPeekDecodeFromBytes m data =
        .ret (some ("bad header version " ++ toString (u8 data 4))) m)
    ∧ (9 ≤ data.length → u8 data 4 = PEEK_HDR1_VERSION →
        be32 data 5 ≠ PEEK_HDR1_SIZE →
      omniPeekDecodeFromBytes m data =
        .ret (some ("bad header size " ++ toString (be32 data 5))) m)
    ∧ (13 ≤ data.length → u8 data 4 = PEEK_HDR1_VERSION →
        be32 data 5 = PEEK_HDR1_SIZE → be32 data 9 ≠ PEEK_HDR1_TYPE →
      omniPeekDecodeFromBytes m data =
        .ret (some ("bad header type " ++ toString (be32 data 9))) m) := by
  refine ⟨?_, ?_, ?_⟩
  · intro hlen hv
    have h4 : ¬ data.length < 4 := by omega
    have h5 : ¬ data.length < 5 := by omega
    simp [omniPeekDecodeFromBytes, h4, h5, hmagic, hv]
  · intro hlen hv hs
    have h4 : ¬ data.length < 4 := by omega
    have h5 : ¬ data.length < 5 := by omega
    have h9 : ¬ data.length < 9 := by omega
    simp [omniPeekDecodeFromBytes, h4, h5, h9, hmagic, hv, hs]
  · intro hlen hv hs ht
    have h4 : ¬ data.length < 4 := by omega
    have h5 : ¬ data.length < 5 := by omega
    have h9 : ¬ data.length < 9 := by omega
    have h13 : ¬ data.length < 13 := by omega
    simp [omniPeekDecodeFromBytes, h4, h5, h9, h13, hmagic, hv, hs, ht]

/-- Claim C4: on any buffer of length at least 20 whose first 4 big-endian
bytes are not the extended magic, `OmniPeek.DecodeFromBytes` succeeds
unconditionally (no legacy validation), records the legacy format
(HeaderVersion = HDR_VERSION_0), extracts the legacy fields at their fixed
offsets, and consumes exactly 20 bytes. -/
theorem C4_legacy_decode (m : OmniPeek) (data : Bytes)
    (h20 : 20 ≤ data.length)
    (hmagic : be32 data 0 ≠ PEEK_HDR1_MAGIC_VAL) :
    omniPeekDecodeFromBytes m data = .ret none
      { m with
        HeaderVersion := HDR_VERSION_0
        Signal_dBm := toInt8 (u8 data 0)
        Noise_dBm := toInt8 (u8 data 1)
        PacketLength := be16 data 2
        SliceLength := be16 data 4
        Flags := u8 data 6
        Status := u8 data 7
        TimeStamp := timeUnixNanos (be32 data 8) ((be32 data 12 : Int) * 1000)
        DataRate := u8 data 16
        Channel := (u8 data 17 : Int)
        SignalStrength := u8 data 18
        NoiseStrength := u8 data 19
        Contents := data.take 20
        Payload := data.drop 20 } := by
  have h4 : ¬ data.length < 4 := by omega
  have h20' : ¬ data.length < 20 := by omega
  simp [omniPeekDecodeFromBytes, h4, h20', hmagic, PEEK_HDR0_SIZE]

/-- Witness for C2: the crafted extended buffer with sec=1700000000 and
usec=500000 decodes to the extended format with timestamp
1700000000500000000 ns (500,000,000 ns past the second boundary),
Contents = first 55 bytes and Payload = the remaining 3. -/
theorem C2_extended_decode_witness :
    55 ≤ extendedSample.length ∧
    omniPeekDecodeFromBytes OmniPeek.zero extendedSample = .ret none
      { Contents := extendedSample.take 55
        Payload := [0xaa, 0xbb, 0xcc]
        HeaderVersion := 1
        TimeStamp := 1700000000500000000
        Flags := 1
        Status := 2
        PacketLength := 100
        SliceLength := 100
        NoiseStrength := 40
        SignalStrength := 65
        Noise_dBm := -100
        Signal_dBm := -63
        Channel := 36
        DataRate := 258
        Frequency := 5228
        Band := 2
        Dot11_HT_VHT_Flags := 1 } := by
  constructor
  · decide
  · have h := C2_extended_decode OmniPeek.zero extendedSample (by decide)
      rfl rfl rfl rfl
    exact h.trans rfl

/-- Witness for C3: a buffer with the extended magic but version byte 3
produces the "bad header version 3" error and leaves the zero receiver
untouched. -/
theorem C3_malformed_extended_witness :
    omniPeekDecodeFromBytes OmniPeek.zero extendedBadVersion =
      .ret (some "bad header version 3") OmniPeek.zero := by
  have h := (C3_malformed_extended OmniPeek.zero extendedBadVersion rfl).1
    (by decide) (by decide)
  exact h.trans rfl

/-- Witness for C4: a 22-byte non-magic buffer decodes as legacy, consuming
20 bytes; note Channel = 240 (byte 0xf0 at offset 17 is zero-extended). -/
theorem C4_legacy_decode_witness :
    20 ≤ legacySample.length ∧
    omniPeekDecodeFromBytes OmniPeek.zero legacySample = .ret none
      { Contents := legacySample.take 20
        Payload := [0xdd, 0xee]
        HeaderVersion := 0
        TimeStamp := 1700000000500000000
        Flags := 1
        Status := 2
        PacketLength := 100
        SliceLength := 50
        NoiseStrength := 40
        SignalStrength := 55
        Noise_dBm := -100
        Signal_dBm := -63
        Channel := 240
        DataRate := 108
        Frequency := 0
        Band := 0
        Dot11_HT_VHT_Flags := 0 } := by
  constructor
  · decide
  · have h := C4_legacy_decode OmniPeek.zero legacySample (by decide) (by decide)
    exact h.trans rfl

/-- Claim C5: on any buffer of length at least 69, `EAPOLKey.DecodeFromBytes`
reads the key-info mask little-endian at offset 1 and unpacks
DescriptorVersion as mask AND 7 and the nine single-bit fields as
(mask >> n) AND 1 for n = 3, 6, 7, 8, 9, 10, 11, 12, 13, for every value
of the mask. -/
theorem C5_keyinfo_unpack (e : EAPOLKey) (data : Bytes)
    (h : 69 ≤ data.length) :
    ∃ r, eapolKeyDecodeFromBytes e data = .ret none r
      ∧ r.KeyInfo = le16 data 1
      ∧ r.KeyInfo_DescriptorVersion = le16 data 1 &&& 7
      ∧ r.KeyInfo_Type = (le16 data 1 >>> 3) &&& 1
      ∧ r.KeyInfo_Install = (le16 data 1 >>> 6) &&& 1
      ∧ r.KeyInfo_ACK = (le16 data 1 >>> 7) &&& 1
      ∧ r.KeyInfo_MIC = (le16 data 1 >>> 8) &&& 1
      ∧ r.KeyInfo_Secure = (le16 data 1 >>> 9) &&& 1
      ∧ r.KeyInfo_Error = (le16 data 1 >>> 10) &&& 1
      ∧ r.KeyInfo_Request = (le16 data 1 >>> 11) &&& 1
      ∧ r.KeyInfo_EncryptedKeyData = (le16 data 1 >>> 12) &&& 1
      ∧ r.KeyInfo_SMKMessage = (le16 data 1 >>> 13) &&& 1 := by
  have h' : ¬ data.length < 69 := by omega
  unfold eapolKeyDecodeFromBytes
  rw [if_neg h']
  exact ⟨_, rfl, rfl, rfl, rfl, rfl, rfl, rfl, rfl, rfl, rfl, rfl, rfl⟩

/-- Witness for C5: the sample key frame with mask 0x03c9 =
0b0000001111001001 unpacks to descriptor version 1 and bit fields
1,1,1,1,1,0,0,0,0 at positions 3..13. -/
theorem C5_keyinfo_unpack_witness :
    ∃ r, eapolKeyDecodeFromBytes EAPOLKey.zero eapolKeySample = .ret none r
      ∧ r.KeyInfo = 969
      ∧ r.KeyInfo_DescriptorVersion = 1
      ∧ r.KeyInfo_Type = 1
      ∧ r.KeyInfo_Install = 1
      ∧ r.KeyInfo_ACK = 1
      ∧ r.KeyInfo_MIC = 1
      ∧ r.KeyInfo_Secure = 1
      ∧ r.KeyInfo_Error = 0
      ∧ r.KeyInfo_Request = 0
      ∧ r.KeyInfo_EncryptedKeyData = 0
      ∧ r.KeyInfo_SMKMessage = 0 := by
  obtain ⟨r, h0, h1, h2, h3, h4, h5, h6, h7, h8, h9, h10, h11⟩ :=
    C5_keyinfo_unpack EAPOLKey.zero eapolKeySample (by decide)
  exact ⟨r, h0, h1.trans rfl, h2.trans rfl, h3.trans rfl, h4.trans rfl,
    h5.trans rfl, h6.trans rfl, h7.trans rfl, h8.trans rfl, h9.trans rfl,
    h10.trans rfl, h11.trans rfl⟩

/-- Claim C6: in every namespace that has String/Decode methods in
layers/enums.go, a code whose registry slot is the zero (unregistered)
record makes the String method return exactly
"Unknown<Namespace>(<code>)" — a total function that never fails — while
the Decode method on the same code returns the
"Unable to decode <namespace> <code>" unsupported-protocol error instead
of invoking any decoder. -/
theorem C6_unregistered_slot (st : Registries) :
    (∀ a data, st .ethernetType a = emptyMetadata →
      EthernetType.String st a = "UnknownEthernetType(" ++ toString a.val ++ ")"
      ∧ EthernetType.Decode st a data =
          some ("Unable to decode ethernet type " ++ toString a.val))
    ∧ (∀ a data, st .ipProtocol a = emptyMetadata →
      IPProtocol.String st a = "UnknownIPProtocol(" ++ toString a.val ++ ")"
      ∧ IPProtocol.Decode st a data =
          some ("Unable to decode IP protocol " ++ toString a.val))
    ∧ (∀ a data, st .sctpChunkType a = emptyMetadata →
      SCTPChunkType.String st a = "UnknownSCTPChunkType(" ++ toString a.val ++ ")"
      ∧ SCTPChunkType.Decode st a data =
          some ("Unable to decode SCTP chunk type " ++ toString a.val))
    ∧ (∀ a data, st .pppType a = emptyMetadata →
      PPPType.String st a = "UnknownPPPType(" ++ toString a.val ++ ")"
      ∧ PPPType.Decode st a data =
          some ("Unable to decode PPP type " ++ toString a.val))
    ∧ (∀ a data, st .linkType a = emptyMetadata →
      LinkType.String st a = "UnknownLinkType(" ++ toString a.val ++ ")"
      ∧ LinkType.Decode st a data =
          some ("Unable to decode link type " ++ toString a.val))
    ∧ (∀ a data, st .pppoeCode a = emptyMetadata →
      PPPoECode.String st a = "UnknownPPPoECode(" ++ toString a.val ++ ")"
      ∧ PPPoECode.Decode st a data =
          some ("Unable to decode PPPoE code " ++ toString a.val))
    ∧ (∀ a data, st .fddiFrameControl a = emptyMetadata →
      FDDIFrameControl.String st a =
          "UnknownFDDIFrameControl(" ++ toString a.val ++ ")"
      ∧ FDDIFrameControl.Decode st a data =
          some ("Unable to decode FDDI frame control " ++ toString a.val))
    ∧ (∀ a data, st .eapolType a = emptyMetadata →
      EAPOLType.String st a = "UnknownEAPOLType(" ++ toString a.val ++ ")"
      ∧ EAPOLType.Decode st a data =
          some ("Unable to decode EAPOL type " ++ toString a.val))
    ∧ (∀ a data, st .protocolFamily a = emptyMetadata →
      ProtocolFamily.String st a =
          "UnknownProtocolFamily(" ++ toString a.val ++ ")"
      ∧ ProtocolFamily.Decode st a data =
          some ("Unable to decode protocol family " ++ toString a.val))
    ∧ (∀ a data, st .dot11Type a = emptyMetadata →
      Dot11Type.String st a = "UnknownDot11Type(" ++ toString a.val ++ ")"
      ∧ Dot11Type.Decode st a data =
          some ("Unable to decode Dot11 type " ++ toString a.val)) := by
  refine ⟨?_, ?_, ?_, ?_, ?_, ?_, ?_, ?_, ?_, ?_⟩ <;>
  · intro a data h
    constructor <;>
      simp [EthernetType.String, EthernetType.Decode, IPProtocol.String,
        IPProtocol.Decode, SCTPChunkType.String, SCTPChunkType.Decode,
        PPPType.String, PPPType.Decode, LinkType.String, LinkType.Decode,
        PPPoECode.String, PPPoECode.Decode, FDDIFrameControl.String,
        FDDIFrameControl.Decode, EAPOLType.String, EAPOLType.Decode,
        ProtocolFamily.String, ProtocolFamily.Decode, Dot11Type.String,
        Dot11Type.Decode, enumString, enumDecode, h, emptyMetadata]

/-- Witness for C6: in the all-empty registry state, ethernet-type code 0
stringifies to "UnknownEthernetType(0)" and decoding it yields the
"Unable to decode ethernet type 0" error. -/
theorem C6_unregistered_slot_witness :
    EthernetType.String emptyRegistries ⟨0, by decide⟩ = "UnknownEthernetType(0)"
    ∧ EthernetType.Decode emptyRegistries ⟨0, by decide⟩ [] =
        some "Unable to decode ethernet type 0" := by
  have h := (C6_unregistered_slot emptyRegistries).1 ⟨0, by decide⟩ [] rfl
  exact ⟨h.1.trans rfl, h.2.trans rfl⟩

/-- Claim C7: `decodeIPv4or6` dispatches on the high nibble of the first
byte: 4 invokes the IPv4 decoder on the whole buffer, 6 the IPv6 decoder,
and any other nibble value v yields the "Invalid IP packet version v"
error without invoking either decoder. -/
theorem C7_version_dispatch (decodeIPv4 decodeIPv6 : Bytes → Option String)
    (data : Bytes) (hne : data ≠ []) :
    (u8 data 0 / 16 = 4 →
      decodeIPv4or6 decodeIPv4 decodeIPv6 data = .ret (decodeIPv4 data) ())
    ∧ (u8 data 0 / 16 = 6 →
      decodeIPv4or6 decodeIPv4 decodeIPv6 data = .ret (decodeIPv6 data) ())
    ∧ (u8 data 0 / 16 ≠ 4 → u8 data 0 / 16 ≠ 6 →
      decodeIPv4or6 decodeIPv4 decodeIPv6 data =
        .ret (some ("Invalid IP packet version " ++ toString (u8 data 0 / 16)))
          ()) := by
  have hpos : 0 < data.length := List.length_pos.mpr hne
  have hlen : ¬ data.length < 1 := by omega
  refine ⟨?_, ?_, ?_⟩
  · intro h4
    simp [decodeIPv4or6, hlen, h4]
  · intro h6
    simp [decodeIPv4or6, hlen, h6]
  · intro h4 h6
    simp [decodeIPv4or6, hlen, h4, h6]

/-- Witness for C7: first byte 0x45 routes to the IPv4 decoder, 0x6a to
the IPv6 decoder, and 0x50 (nibble 5) fails with
"Invalid IP packet version 5". -/
theorem C7_version_dispatch_witness :
    decodeIPv4or6 sampleOkDecoder sampleErrDecoder [0x45] =
      .ret (sampleOkDecoder [0x45]) ()
    ∧ decodeIPv4or6 sampleOkDecoder sampleErrDecoder [0x6a] =
      .ret (sampleErrDecoder [0x6a]) ()
    ∧ decodeIPv4or6 sampleOkDecoder sampleErrDecoder [0x50] =
      .ret (some "Invalid IP packet version 5") () := by
  refine ⟨?_, ?_, ?_⟩
  · exact (C7_version_dispatch sampleOkDecoder sampleErrDecoder [0x45]
      (by decide)).1 rfl
  · exact (C7_version_dispatch sampleOkDecoder sampleErrDecoder [0x6a]
      (by decide)).2.1 rfl
  · have h := (C7_version_dispatch sampleOkDecoder sampleErrDecoder [0x50]
      (by decide)).2.2 (by decide) (by decide)
    exact h.trans rfl

/-- Claim C8: overwriting the registry slot for code c in any namespace
with metadata m makes subsequent decode results and name results for c
reflect m (m's decoder is invoked if non-nil, else the unsupported error;
m's name is returned if non-empty, else the synthesized unknown string),
and leaves the slot, decode result and name result of every other code of
that namespace, and the whole registry of every other namespace,
unchanged. -/
theorem C8_override_isolation (st : Registries) (ns : NS) (c : Fin ns.size)
    (m : EnumMetadata) :
    (overrideSlot st ns c m) ns c = m
    ∧ (∀ p data, enumDecode ((overrideSlot st ns c m) ns) p c data =
        match m.DecodeWith with
        | some d => d data
        | none => some (p ++ toString c.val))
    ∧ (∀ p, enumString ((overrideSlot st ns c m) ns) p c =
        if m.Name ≠ "" then m.Name else p ++ toString c.val ++ ")")
    ∧ (∀ c', c' ≠ c → (overrideSlot st ns c m) ns c' = st ns c')
    ∧ (∀ p data c', c' ≠ c →
        enumDecode ((overrideSlot st ns c m) ns) p c' data =
          enumDecode (st ns) p c' data)
    ∧ (∀ p c', c' ≠ c →
        enumString ((overrideSlot st ns c m) ns) p c' =
          enumString (st ns) p c')
    ∧ (∀ ns', ns' ≠ ns → (overrideSlot st ns c m) ns' = st ns') := by
  have key : (overrideSlot st ns c m) ns = Function.update (st ns) c m := by
    unfold overrideSlot
    exact Function.update_same ns _ st
  refine ⟨?_, ?_, ?_, ?_, ?_, ?_, ?_⟩
  · rw [key]
    exact Function.update_same c m (st ns)
  · intro p data
    unfold enumDecode
    rw [key, Function.update_same c m (st ns)]
  · intro p
    unfold enumString
    rw [key, Function.update_same c m (st ns)]
  · intro c' hc'
    rw [key]
    exact Function.update_noteq hc' m (st ns)
  · intro p data c' hc'
    unfold enumDecode
    rw [key, Function.update_noteq hc' m (st ns)]
  · intro p c' hc'
    unfold enumString
    rw [key, Function.update_noteq hc' m (st ns)]
  · intro ns' hns'
    unfold overrideSlot
    exact Function.update_noteq hns' _ st

/-- Witness for C8: overriding ethernet-type slot 1 of the empty registry
state with the sample record installs it at slot 1, leaves slot 0 and the
entire IP-protocol registry untouched, and makes slot 1 name as "Sample". -/
theorem C8_override_isolation_witness :
    (overrideSlot emptyRegistries .ethernetType ⟨1, by decide⟩ sampleMetadata)
        .ethernetType ⟨1, by decide⟩ = sampleMetadata
    ∧ (overrideSlot emptyRegistries .ethernetType ⟨1, by decide⟩ sampleMetadata)
        .ethernetType ⟨0, by decide⟩ =
        emptyRegistries .ethernetType ⟨0, by decide⟩
    ∧ (overrideSlot emptyRegistries .ethernetType ⟨1, by decide⟩ sampleMetadata)
        .ipProtocol = emptyRegistries .ipProtocol
    ∧ enumString
        ((overrideSlot emptyRegistries .ethernetType ⟨1, by decide⟩
          sampleMetadata) .ethernetType) "UnknownEthernetType(" ⟨1, by decide⟩ =
        "Sample" := by
  have h := C8_override_isolation emptyRegistries .ethernetType ⟨1, by decide⟩
    sampleMetadata
  refine ⟨h.1, h.2.2.2.1 ⟨0, by decide⟩ (by decide),
    h.2.2.2.2.2.2 .ipProtocol (by decide), ?_⟩
  have hs := h.2.2.1 "UnknownEthernetType("
  exact hs.trans rfl

/-- Counterexample for C9: the claim says every 8-bit code space has a
256-slot registry, but the IP-protocol metadata array is declared with 265
slots in the source. -/
theorem C9_counterexample : ¬ NS.size .ipProtocol = 256 := by
  decide

/-- Claim C9 (amended): the metadata arrays are dense and indexed by the
code value, with 65536 slots for the 16-bit namespaces and 256 slots for
the 8-bit namespaces — except IPProtocolMetadata and SCTPChunkTypeMetadata,
which are declared with 265 slots, 9 beyond the 8-bit code range; every
representable code therefore has a slot (every namespace has at least 256),
but those two registries also hold slots no code can reach. -/
theorem C9_registry_sizes :
    NS.size .ethernetType = 65536
    ∧ NS.size .pppType = 65536
    ∧ NS.size .ipProtocol = 265
    ∧ NS.size .sctpChunkType = 265
    ∧ NS.size .pppoeCode = 256
    ∧ NS.size .linkType = 256
    ∧ NS.size .fddiFrameControl = 256
    ∧ NS.size .eapolType = 256
    ∧ NS.size .protocolFamily = 256
    ∧ NS.size .dot11Type = 256
    ∧ NS.size .usbType = 256
    ∧ (∀ ns : NS, 256 ≤ NS.size ns) := by
  refine ⟨rfl, rfl, rfl, rfl, rfl, rfl, rfl, rfl, rfl, rfl, rfl, ?_⟩
  intro ns
  cases ns <;> simp [NS.size]

/-- Claim C10: the ten exported KeyInfo constants in layers/eapol.go all
evaluate to 1 (the const block repeats the expression 1 << 0 without
iota), so they are not distinct single-bit masks and masking any KeyInfo
value with one of them selects only bit 0. -/
theorem C10_keyinfo_constants :
    (KeyInfo_DescriptorVersion = 1 ∧ KeyInfo_Type = 1 ∧ KeyInfo_Install = 1
     ∧ KeyInfo_ACK = 1 ∧ KeyInfo_MIC = 1 ∧ KeyInfo_Secure = 1
     ∧ KeyInfo_Error = 1 ∧ KeyInfo_Request = 1
     ∧ KeyInfo_EncryptedKeyData = 1 ∧ KeyInfo_SMKMessage = 1)
    ∧ ∀ v : Nat, v &&& KeyInfo_SMKMessage = v % 2 := by
  refine ⟨⟨rfl, rfl, rfl, rfl, rfl, rfl, rfl, rfl, rfl, rfl⟩, fun v => ?_⟩
  show v &&& 1 = v % 2
  exact Nat.and_one_is_mod v

/-- Witness for C10: masking the sample value 5 with KeyInfo_SMKMessage
selects only bit 0, yielding 1 = 5 mod 2. -/
theorem C10_keyinfo_constants_witness :
    (5 : Nat) &&& KeyInfo_SMKMessage = 5 % 2 :=
  C10_keyinfo_constants.2 5
